import Mathlib

/-!
Verification of the data-source client layer of the federal_reserve_etl
repository (FRED / Haver Analytics ETL pipeline), via a shallow embedding
of the Python source in Lean 4.

Modelling conventions:
* Python strings are Lean `String`; `.strip()` is `String.trim`,
  `.upper()` is `String.toUpper` (the inputs of interest are ASCII).
* Wall-clock instants and durations (float seconds in the source) are
  modelled as rationals `ℚ`; `time.sleep` is modelled by recording the
  requested sleep duration and advancing the clock by it.
* Exceptions of the local hierarchy are a structure `ETLError` whose
  `kind` field plays the role of the Python class and whose remaining
  fields model the attributes/context keys the claims need.  Fallible
  code returns `Except ETLError`.
* HTTP traffic is abstracted behind per-variable fetch functions passed
  as parameters (the per-variable request/parse step of the clients);
  everything downstream of those functions is translated line by line
  from the source.
* `pandas` column assignment `df[v] = series` on a growing DataFrame
  aligns the assigned series to the index the DataFrame already has
  (first assignment installs the series own index); `combine` below
  reproduces exactly that, assuming the per-series date indices are
  duplicate-free (FRED/Haver observation lists are requested in
  ascending order, one entry per date).
-/

/-! ### Error taxonomy (src/federal_reserve_etl/utils/exceptions.py) -/

/-- Kind of a `FederalReserveETLError`: which class in the Python
exception hierarchy the instance belongs to.  `RateLimitError` is a
subclass of `DataRetrievalError`; subclass relations that the control
flow tests with `isinstance` are encoded in the predicates below. -/
inductive ETLErrorKind where
  | base
  | connection
  | authentication
  | dataRetrieval
  | validation
  | configuration
  | rateLimit
deriving DecidableEq, Repr

/-- A `FederalReserveETLError` instance: message, optional error code and
the context keys that the claims inspect (each subclass `__init__` packs
its keyword arguments into `self.context`). -/
structure ETLError where
  kind : ETLErrorKind
  message : String
  error_code : Option String := none
  /-- context key "variables" (DataRetrievalError); renamed since
  variables is a reserved word in Lean. -/
  variablesCtx : List String := []
  /-- context key "invalid_variables" (ValidationError raised by
  validate_variable_codes). -/
  invalid_variables : List String := []
  /-- context key "config_key" (ConfigurationError). -/
  config_key : Option String := none
  /-- context key "limit" (RateLimitError). -/
  limit : Option Nat := none
  /-- context key "retry_after" (RateLimitError); `none` when the
  keyword was absent or falsy, mirroring `if retry_after:`. -/
  retry_after : Option Int := none
deriving DecidableEq, Repr

/-- `isinstance(e, RateLimitError)`. -/
def ETLError.isRateLimit (e : ETLError) : Bool :=
  e.kind = ETLErrorKind.rateLimit

/-- `isinstance(e, (ConnectionError, RateLimitError))`: the default
`retriable_exceptions` tuple of `handle_api_errors`. -/
def ETLError.isRetriableDefault (e : ETLError) : Bool :=
  e.kind = ETLErrorKind.connection || e.kind = ETLErrorKind.rateLimit

/-- Attribute names set on every exception instance by
`FederalReserveETLError.__init__` (`self.message`, `self.error_code`,
`self.context`).  No subclass `__init__` assigns any further instance
attribute: in particular `RateLimitError.__init__` stores `retry_after`
only inside the `context` dict, never as an attribute. -/
def etlErrorInstanceAttrs : List String :=
  ["message", "error_code", "context"]

/-- Python `hasattr(e, name)` for an instance of the local exception
hierarchy. -/
def etlHasattr (name : String) : Bool :=
  etlErrorInstanceAttrs.contains name

/-- `e.context.get "retry_after" default` as a duration. -/
def ETLError.contextRetryAfter (e : ETLError) (default : ℚ) : ℚ :=
  match e.retry_after with
  | some r => (r : ℚ)
  | none => default

/-- ASCII single quote, used when reconstructing error-message text. -/
def sQuote : String := String.singleton (Char.ofNat 39)

/-- Python `s.strip()`: drop whitespace from both ends.  Implemented
over the character list so that the kernel can evaluate it (Python
strings are sequences of code points). -/
def pyStrip (s : String) : String :=
  String.mk
    (((s.toList.dropWhile Char.isWhitespace).reverse.dropWhile
        Char.isWhitespace).reverse)

/-- Python `s.upper()` (ASCII fragment). -/
def pyUpper (s : String) : String :=
  String.mk (s.toList.map Char.toUpper)

/-- Python `s.lower()` (ASCII fragment). -/
def pyLower (s : String) : String :=
  String.mk (s.toList.map Char.toLower)

/-- Lexicographic strict order on code-point lists (Python string
comparison). -/
def charListLt : List Char → List Char → Bool
  | [], [] => false
  | [], _ :: _ => true
  | _ :: _, [] => false
  | a :: as, b :: bs =>
      if a < b then true else if b < a then false else charListLt as bs

/-- Python string `<`. -/
def pyStrLt (a b : String) : Bool := charListLt a.toList b.toList

/-! ### Variable-code validation
(src/federal_reserve_etl/utils/error_handling.py, validate_variable_codes) -/

/-- `var.strip().upper()` — the normalized form of a variable code. -/
def varClean (v : String) : String := pyUpper (pyStrip v)

/-- The tag string appended to `invalid_vars` for an invalid entry, or
`none` if the entry passes the checks.  Mirrors the two data-dependent
rejection branches of `validate_variable_codes` (the `isinstance(var,
str)` branch is vacuous here since every Lean entry is a string). -/
def tagInvalid (v : String) : Option String :=
  let var_clean := varClean v
  if var_clean.isEmpty then some (sQuote ++ v ++ sQuote ++ " (empty)")
  else if var_clean.length > 50 then some (sQuote ++ v ++ sQuote ++ " (too long)")
  else none

/-- One step of the validation loop: threads the accumulators
`(validated_vars, invalid_vars)` through one entry. -/
def validateStep (acc : List String × List String) (v : String) :
    List String × List String :=
  match tagInvalid v with
  | some tag => (acc.1, acc.2 ++ [tag])
  | none => (acc.1 ++ [varClean v], acc.2)

/-- `", ".join(invalid_vars)`. -/
def joinCommaSpace : List String → String
  | [] => ""
  | [s] => s
  | s :: rest => s ++ ", " ++ joinCommaSpace rest

/-- `validate_variable_codes` on a list argument: normalizes every entry
to its uppercase-trimmed form; if any entry is invalid, raises a
`ValidationError` whose message and context enumerate all invalid
entries. -/
def validate_variable_codes (vars : List String) :
    Except ETLError (List String) :=
  let acc := vars.foldl validateStep ([], [])
  if acc.2.isEmpty then
    Except.ok acc.1
  else
    Except.error
      { kind := ETLErrorKind.validation
        message := "Invalid variable codes: " ++ joinCommaSpace acc.2
        error_code := some "INVALID_VARIABLES"
        invalid_variables := acc.2 }

/-- The character class the spec asserts for variable codes
(alphanumeric plus underscore and hyphen).  Stated from the spec for
comparison: the source performs no such per-character check. -/
def specAllowedChar (c : Char) : Bool :=
  c.isAlphanum || c = '_' || c = '-'

/-! ### Insertion-ordered dictionaries
(model of Python `dict` used as `all_data` / `metadata` accumulators) -/

/-- Lookup in an insertion-ordered dictionary (`d[k]` / `k in d`). -/
def dictGet {α : Type} : List (String × α) → String → Option α
  | [], _ => none
  | (k, a) :: rest, key => if k = key then some a else dictGet rest key

/-- `d[k] = a` on a Python dict: overwrite in place if the key exists,
else append at the end (insertion order preserved). -/
def dictInsert {α : Type} : List (String × α) → String → α → List (String × α)
  | [], key, a => [(key, a)]
  | (k, b) :: rest, key, a =>
      if k = key then (key, a) :: rest else (k, b) :: dictInsert rest key a

/-! ### Series and tables
(normalized output shape of FREDDataSource.get_data / HaverDataSource.get_data) -/

/-- One variable's fetched observations: a (date, value) list as built by
`_fetch_series_observations` / `_fetch_series_data` (missing-value
sentinels already dropped).  Dates are abstract day numbers. -/
abbrev Series := List (Nat × Int)

/-- `s[d]` for a pandas Series with unique index: the value at date `d`
if the series has an observation there. -/
def seriesLookup (s : Series) (d : Nat) : Option Int :=
  (s.find? (fun p => p.1 = d)).map (fun p => p.2)

/-- The wide-format result table: a row index of dates and, per
variable, a column of optional values aligned to that index (`none` is
pandas NaN, an absent value). -/
structure Table where
  index : List Nat
  cols : List (String × List (Option Int))
deriving DecidableEq, Repr

/-- `combined_df = pd.DataFrame(); for v, s in all_data.items():
combined_df[v] = s`.  The first assignment installs the first series'
own index; each subsequent assignment aligns its series to that fixed
index (values at dates absent from the index are dropped, dates with no
value hold NaN).  With a unique per-series index the first column also
equals its series aligned to its own index. -/
def combine (all_data : List (String × Series)) : Table :=
  match all_data with
  | [] => { index := [], cols := [] }
  | (v0, s0) :: rest =>
      let idx := s0.map (fun p => p.1)
      { index := idx
        cols := ((v0, s0) :: rest).map
          (fun vs => (vs.1, idx.map (seriesLookup vs.2))) }

/-! ### get_data
(src/federal_reserve_etl/data_sources/fred_client.py lines 271-357 and
src/federal_reserve_etl/data_sources/haver_client.py lines 288-380; the
two bodies are identical in structure, differing only inside the
per-variable fetch, which is the `fetch` parameter here) -/

/-- The per-variable loop of `get_data`: threads `(all_data,
failed_variables)` over the validated variable list.  A fetch that
raises, or returns an empty series, marks the variable failed; a
non-empty series is stored under the variable's (normalized) code. -/
def getDataLoop (fetch : String → Except ETLError Series) :
    List String → List (String × Series) × List String →
    List (String × Series) × List String
  | [], acc => acc
  | v :: vs, (all_data, failed) =>
      match fetch v with
      | Except.ok s =>
          if s.isEmpty then getDataLoop fetch vs (all_data, failed ++ [v])
          else getDataLoop fetch vs (dictInsert all_data v s, failed)
      | Except.error _ => getDataLoop fetch vs (all_data, failed ++ [v])

/-- `get_data(variables, start_date, end_date)`.  `is_connected` is the
client's connection flag; `dateCheck` is the outcome of
`validate_and_convert_dates(start_date, end_date)` (its internals are
orthogonal to the claims and abstracted to their result); `fetch` is the
per-variable retrieval step (`_enforce_rate_limit` plus the HTTP fetch
and parse), whose exceptions the loop catches per variable. -/
def get_data (is_connected : Bool) (fetch : String → Except ETLError Series)
    (dateCheck : Except ETLError Unit) (vars : List String) :
    Except ETLError Table :=
  if !is_connected then
    Except.error
      { kind := ETLErrorKind.connection
        message := "Not connected. Call connect() first." }
  else
    match validate_variable_codes vars with
    | Except.error e => Except.error e
    | Except.ok variable_list =>
        match dateCheck with
        | Except.error e => Except.error e
        | Except.ok _ =>
            let acc := getDataLoop fetch variable_list ([], [])
            if acc.1.isEmpty then
              Except.error
                { kind := ETLErrorKind.dataRetrieval
                  message := "No data retrieved for any requested variables"
                  variablesCtx := variable_list }
            else
              Except.ok (combine acc.1)

/-- The per-variable fetch outcome that counts as a success in the loop
(`series_data` non-empty), paired with its variable code. -/
def succEntry (fetch : String → Except ETLError Series) (v : String) :
    Option (String × Series) :=
  match fetch v with
  | Except.ok s => if s.isEmpty then none else some (v, s)
  | Except.error _ => none

/-- The successfully retrieved (variable, series) pairs of a validated
variable list, in request order. -/
def succList (fetch : String → Except ETLError Series) (vs : List String) :
    List (String × Series) :=
  vs.filterMap (succEntry fetch)

/-- Insertion sort step for date lists. -/
def insertDate (x : Nat) : List Nat → List Nat
  | [] => [x]
  | y :: ys => if x ≤ y then x :: y :: ys else y :: insertDate x ys

/-- Ascending sort of a date list. -/
def sortDates (l : List Nat) : List Nat := l.foldr insertDate []

/-- Modelled from the spec (section 3, "Time-series table"), for
comparison with `combine`: the outer-join table whose row index is the
ascending duplicate-free union of all retrieved series' dates and whose
cells hold the variable's value at the row's date when it has one. -/
def specOuterJoinTable (all_data : List (String × Series)) : Table :=
  let idx := sortDates ((all_data.map (fun vs => vs.2.map (fun p => p.1))).flatten).dedup
  { index := idx
    cols := all_data.map (fun vs => (vs.1, idx.map (seriesLookup vs.2))) }

/-! ### Metadata retrieval
(fred_client.py get_metadata / get_variable_metadata lines 508-585,
haver_client.py lines 546-618; identical structure in both clients, the
per-variable HTTP fetch + field mapping being the `fetchMeta`
parameter) -/

/-- The common variable-metadata record shape both clients build. -/
structure VariableMetadata where
  code : String
  name : String
  description : String
  units : String
  frequency : String
  source : String
  category : String
  start_date : String
  end_date : String
deriving DecidableEq, Repr

/-- Per-variable metadata fetch outcome: `.error` when the HTTP request
or response validation raises (caught and logged by the loop),
`.ok none` when the response carries no series record (FRED: missing or
empty "seriess"; Haver: missing "metadata"), `.ok (some m)` when the
client builds a record `m` from the response fields. -/
abbrev MetaFetch := String → Except ETLError (Option VariableMetadata)

/-- `get_metadata(variables)`: validates the codes, fetches metadata per
normalized variable, and silently omits every variable whose fetch
raised or returned nothing. -/
def get_metadata (is_connected : Bool) (fetchMeta : MetaFetch)
    (vars : List String) :
    Except ETLError (List (String × VariableMetadata)) :=
  if !is_connected then
    Except.error
      { kind := ETLErrorKind.connection
        message := "Not connected. Call connect() first." }
  else
    match validate_variable_codes vars with
    | Except.error e => Except.error e
    | Except.ok variable_list =>
        Except.ok (variable_list.foldl
          (fun metadata v =>
            match fetchMeta v with
            | Except.ok (some m) => dictInsert metadata v m
            | Except.ok none => metadata
            | Except.error _ => metadata)
          [])

/-- `get_variable_metadata(variable)`: delegates to
`get_metadata([variable])` and raises `DataRetrievalError` when the
original (unnormalized) code is not a key of the returned mapping. -/
def get_variable_metadata (is_connected : Bool) (fetchMeta : MetaFetch)
    (varCode : String) : Except ETLError VariableMetadata :=
  match get_metadata is_connected fetchMeta [varCode] with
  | Except.error e => Except.error e
  | Except.ok metadata_dict =>
      match dictGet metadata_dict varCode with
      | some m => Except.ok m
      | none =>
          Except.error
            { kind := ETLErrorKind.dataRetrieval
              message := "No metadata found for variable " ++ varCode
              variablesCtx := [varCode] }

/-! ### FRED sliding-minute-window rate limiter
(fred_client.py, FREDDataSource._enforce_rate_limit, lines 237-269) -/

/-- The rate-limiting state of a FRED client instance
(`minute_window_start`, `requests_this_minute`, `last_request_time`);
instants are rational seconds. -/
structure RateLimitState where
  minute_window_start : ℚ
  requests_this_minute : Nat
  last_request_time : ℚ
deriving DecidableEq, Repr

/-- Success path tail of `_enforce_rate_limit`: the minimum 0.5 s
spacing sleep, the counter increment, and the `last_request_time`
update (`datetime.now()` taken after the sleep, so `now + sleep`).
Returns the new state and the slept duration. -/
def rateLimitProceed (st : RateLimitState) (now : ℚ) : RateLimitState × ℚ :=
  let time_since_last := now - st.last_request_time
  let sleep := if time_since_last < 1/2 then 1/2 - time_since_last else 0
  ({ st with
      requests_this_minute := st.requests_this_minute + 1
      last_request_time := now + sleep },
   sleep)

/-- `_enforce_rate_limit()` at instant `now`: window reset after 60 s,
limit check raising `RateLimitError` with `retry_after =
int(seconds_to_wait) + 1`, then minimum-spacing sleep and counter
update.  Returns the state after the call (including the mutations that
happened before a raise), the raised error if any, and the slept
duration. -/
def enforce_rate_limit (rate_limit : Nat) (st : RateLimitState) (now : ℚ) :
    RateLimitState × Option ETLError × ℚ :=
  let st1 :=
    if now - st.minute_window_start ≥ 60 then
      { st with minute_window_start := now, requests_this_minute := 0 }
    else st
  if st1.requests_this_minute ≥ rate_limit then
    let seconds_to_wait := 60 - (now - st1.minute_window_start)
    if seconds_to_wait > 0 then
      (st1,
       some
         { kind := ETLErrorKind.rateLimit
           message := "FRED API rate limit exceeded"
           limit := some rate_limit
           retry_after := some (⌊seconds_to_wait⌋ + 1) },
       0)
    else
      let pr := rateLimitProceed st1 now
      (pr.1, none, pr.2)
  else
    let pr := rateLimitProceed st1 now
    (pr.1, none, pr.2)

/-- A sequence of `_enforce_rate_limit` calls at the given instants,
stopping at the first raise (as a `get_data` loop that propagated the
error would). -/
def runRequests (rate_limit : Nat) :
    RateLimitState → List ℚ → RateLimitState × Option ETLError
  | st, [] => (st, none)
  | st, t :: ts =>
      match enforce_rate_limit rate_limit st t with
      | (st1, none, _) => runRequests rate_limit st1 ts
      | (st1, some e, _) => (st1, some e)

/-! ### Retry wrapper
(src/federal_reserve_etl/utils/error_handling.py, handle_api_errors,
lines 25-113) -/

/-- Outcome of one invocation of the wrapped function: normal return,
an exception of the local hierarchy, or an unexpected (non-domain)
exception identified by its type name and message. -/
inductive OpOutcome (α : Type) where
  | ok (a : α)
  | etlErr (e : ETLError)
  | otherErr (typeName msg : String)

/-- The `for attempt in range(retry_count + 1)` loop of the wrapper
produced by `handle_api_errors`.  `op attempt` is the call
`func(*args, **kwargs)` on that attempt; the returned list collects the
durations passed to `time.sleep` before each retry.  `fuel` is
`retry_count + 1 - attempt`, the number of loop iterations left;
`last` models `last_exception` (the fall-through re-raise after the
loop is unreachable, like the source comment says). -/
def handleLoop {α : Type} (retry_count : Nat) (retry_delay backoff_factor : ℚ)
    (op : Nat → OpOutcome α) :
    Nat → Nat → Option ETLError → Except ETLError α × List ℚ
  | _, 0, last =>
      (Except.error
        (last.getD { kind := ETLErrorKind.base, message := "unreachable" }), [])
  | attempt, fuel + 1, _ =>
      match op attempt with
      | OpOutcome.ok a => (Except.ok a, [])
      | OpOutcome.etlErr e =>
          if e.isRetriableDefault then
            if attempt < retry_count then
              let delay := retry_delay * backoff_factor ^ attempt
              let delay :=
                if e.isRateLimit && etlHasattr "retry_after" then
                  max delay (e.contextRetryAfter delay)
                else delay
              let rest :=
                handleLoop retry_count retry_delay backoff_factor op
                  (attempt + 1) fuel (some e)
              (rest.1, delay :: rest.2)
            else
              (Except.error e, [])
          else
            (Except.error e, [])
      | OpOutcome.otherErr typeName msg =>
          (Except.error
            { kind := ETLErrorKind.base
              message := "Unexpected error: " ++ typeName ++ ": " ++ msg
              error_code := some "UNEXPECTED_ERROR" },
           [])

/-- `handle_api_errors(retry_count, retry_delay, backoff_factor)` applied
to an operation, with the default retriable-exception tuple: runs the
attempt loop from attempt 0.  Returns the propagated result and the
sleeps performed (one sleep precedes every retry, so the number of
retries that happened equals the length of the sleep list). -/
def handle_api_errors {α : Type} (retry_count : Nat)
    (retry_delay backoff_factor : ℚ) (op : Nat → OpOutcome α) :
    Except ETLError α × List ℚ :=
  handleLoop retry_count retry_delay backoff_factor op 0 (retry_count + 1) none

/-! ### Connection lifecycle and the scoped-acquisition pattern
(base.py lines 238-246, fred_client.py lines 587-594, haver_client.py
lines 620-627: all three define enter as connect-and-return-self and
exit as an unconditional disconnect that does not suppress the
exception) -/

/-- The connection-relevant state of a client instance: the HTTP session
handle (`self.session is not None`) and the `is_connected` flag. -/
structure ClientState where
  hasSession : Bool
  is_connected : Bool
deriving DecidableEq, Repr

/-- `disconnect()` of either client: close and drop the session if one
exists, clear the flag; never raises, idempotent. -/
def disconnect (_st : ClientState) : ClientState :=
  { hasSession := false, is_connected := false }

/-- The `with client:` statement over a client whose `connect` is
`connect` and whose body is `body` (the body returns its outcome — a
value or the exception it raised — plus the state it leaves).  If
`__enter__`'s connect raises, the body and `__exit__` do not run; else
`__exit__` runs `disconnect` on every exit path and, returning a falsy
value, lets any body exception propagate. -/
def withClient {α : Type} (connect : ClientState → Except ETLError ClientState)
    (body : ClientState → Except ETLError α × ClientState) (st : ClientState) :
    Except ETLError α × ClientState :=
  match connect st with
  | Except.error e => (Except.error e, st)
  | Except.ok st1 =>
      let r := body st1
      (r.1, disconnect r.2)

/-! ### Client constructors and the factory
(fred_client.py _validate_api_key lines 106-136, haver_client.py
_validate_username/_validate_password lines 113-173,
data_sources/__init__.py lines 21-177) -/

/-- Which concrete client class the registry resolves to. -/
inductive SourceClass where
  | fredC
  | haverC
deriving DecidableEq, Repr

/-- `DATA_SOURCE_REGISTRY`: the literal key set of the source, including
its six explicit capitalization aliases — lookup is by exact key, there
is no `.lower()` on the lookup path. -/
def DATA_SOURCE_REGISTRY : List (String × SourceClass) :=
  [("fred", SourceClass.fredC), ("haver", SourceClass.haverC),
   ("FRED", SourceClass.fredC), ("HAVER", SourceClass.haverC),
   ("Haver", SourceClass.haverC), ("Fred", SourceClass.fredC)]

/-- A constructed (still unconnected) client instance: its class, the
`source_name` attribute, and the connection flag.  `DataSource.__init__`
sets `source_name` to "Unknown Source" and neither concrete
`__init__` ever assigns it again. -/
structure ClientInstance where
  cls : SourceClass
  source_name : String
  is_connected : Bool
deriving DecidableEq, Repr

/-- Python `str.isalnum()`: non-empty and every character alphanumeric
(ASCII fragment). -/
def pyIsAlnum (s : String) : Bool :=
  !s.isEmpty && s.toList.all Char.isAlphanum

/-- `api_key.replace('-', '')`. -/
def stripHyphens (s : String) : String :=
  String.mk (s.toList.filter (fun c => c ≠ '-'))

/-- `FREDDataSource.__init__`: validates the API key (non-empty; exactly
32 characters, alphanumeric once hyphens are removed) and builds a
disconnected instance with the base-class `source_name`. -/
def FREDDataSource_init (api_key : String) : Except ETLError ClientInstance :=
  if api_key.isEmpty then
    Except.error
      { kind := ETLErrorKind.validation
        message := "FRED API key must be a non-empty string" }
  else if api_key.length ≠ 32 || !pyIsAlnum (stripHyphens api_key) then
    Except.error
      { kind := ETLErrorKind.validation
        message := "FRED API key must be 32 character alphanumeric string" }
  else
    Except.ok
      { cls := SourceClass.fredC
        source_name := "Unknown Source"
        is_connected := false }

/-- `HaverDataSource.__init__`: validates username (non-empty, stripped
length at least 3) and password (non-empty, length at least 6) and
builds a disconnected instance with the base-class `source_name`. -/
def HaverDataSource_init (username password : String) :
    Except ETLError ClientInstance :=
  if username.isEmpty then
    Except.error
      { kind := ETLErrorKind.validation
        message := "Haver username must be a non-empty string" }
  else if (pyStrip username).length < 3 then
    Except.error
      { kind := ETLErrorKind.validation
        message := "Haver username must be at least 3 characters long" }
  else if password.isEmpty then
    Except.error
      { kind := ETLErrorKind.validation
        message := "Haver password must be a non-empty string" }
  else if password.length < 6 then
    Except.error
      { kind := ETLErrorKind.validation
        message := "Haver password must be at least 6 characters long" }
  else
    Except.ok
      { cls := SourceClass.haverC
        source_name := "Unknown Source"
        is_connected := false }

/-- Python `a or b` on optional credential strings: `a` when present and
truthy (non-empty), else `b`. -/
def pyOr (a b : Option String) : Option String :=
  match a with
  | some s => if s.isEmpty then b else some s
  | none => b

/-- `kwargs.get(k) or config.get(k) or os.getenv(ENV)` followed by the
`if not cred:` missing check: the resolved credential, or `none` when
every layer is absent or falsy. -/
def resolveCred (kw cfg env : Option String) : Option String :=
  match pyOr kw (pyOr cfg env) with
  | some s => if s.isEmpty then none else some s
  | none => none

/-- Insertion sort step for string lists (lexicographic order, as
Python `sorted` on these ASCII keys). -/
def insertString (x : String) : List String → List String
  | [] => [x]
  | y :: ys => if pyStrLt y x then y :: insertString x ys else x :: y :: ys

/-- Ascending sort of a string list. -/
def sortStrings (l : List String) : List String := l.foldr insertString []

/-- `sorted(set(key.lower() for key in DATA_SOURCE_REGISTRY))`,
evaluated over the registry. -/
def availableSources : List String :=
  sortStrings ((DATA_SOURCE_REGISTRY.map (fun p => pyLower p.1)).dedup)

/-- Python `repr` of a list of strings, as `str` formats it inside an
f-string: `[` then comma-separated quoted entries then `]`. -/
def pyStrList (l : List String) : String :=
  "[" ++ joinCommaSpace (l.map (fun s => sQuote ++ s ++ sQuote)) ++ "]"

/-- `__str__` of a `FederalReserveETLError`: the message, prefixed with
the bracketed error code when one is set. -/
def ETLError.toStr (e : ETLError) : String :=
  match e.error_code with
  | some c => "[" ++ c ++ "] " ++ e.message
  | none => e.message

/-- `create_data_source(source_type, config, **kwargs)`.  Credentials
are taken from kwargs, then the config dict, then the environment
(modelled by `env`).  Source lookup strips the identifier and requires
an exact registry key; an unknown identifier raises
`ConfigurationError` naming the available sources.  Any exception
raised during dispatch/construction — including the missing-credential
`ConfigurationError`s of the `_create_*` helpers and the constructors'
`ValidationError`s — is wrapped into a `ConfigurationError` with
`config_key = "source_instantiation"`. -/
def create_data_source (source_type : String)
    (kw_api_key kw_username kw_password : Option String)
    (cfg_api_key cfg_username cfg_password : Option String)
    (env : String → Option String) : Except ETLError ClientInstance :=
  if source_type.isEmpty then
    Except.error
      { kind := ETLErrorKind.configuration
        message := "source_type must be a non-empty string"
        config_key := some "source_type" }
  else
    let source_key := pyStrip source_type
    match dictGet DATA_SOURCE_REGISTRY source_key with
    | none =>
        Except.error
          { kind := ETLErrorKind.configuration
            message := "Unsupported data source: " ++ sQuote ++ source_type ++
              sQuote ++ ". Available sources: " ++ pyStrList availableSources
            config_key := some "source_type" }
    | some source_class =>
        let attempt : Except ETLError ClientInstance :=
          match source_class with
          | SourceClass.fredC =>
              match resolveCred kw_api_key cfg_api_key (env "FRED_API_KEY") with
              | none =>
                  Except.error
                    { kind := ETLErrorKind.configuration
                      message := "FRED API key is required. Provide via api_key parameter or FRED_API_KEY environment variable"
                      config_key := some "api_key" }
              | some api_key => FREDDataSource_init api_key
          | SourceClass.haverC =>
              match resolveCred kw_username cfg_username (env "HAVER_USERNAME") with
              | none =>
                  Except.error
                    { kind := ETLErrorKind.configuration
                      message := "Haver username is required. Provide via username parameter or HAVER_USERNAME environment variable"
                      config_key := some "username" }
              | some username =>
                  match resolveCred kw_password cfg_password (env "HAVER_PASSWORD") with
                  | none =>
                      Except.error
                        { kind := ETLErrorKind.configuration
                          message := "Haver password is required. Provide via password parameter or HAVER_PASSWORD environment variable"
                          config_key := some "password" }
                  | some password => HaverDataSource_init username password
        match attempt with
        | Except.ok inst => Except.ok inst
        | Except.error e =>
            Except.error
              { kind := ETLErrorKind.configuration
                message := "Failed to create data source " ++ sQuote ++
                  source_type ++ sQuote ++ ": " ++ e.toStr
                config_key := some "source_instantiation" }

/-! ### Concrete fixtures used to evaluate the model at specific inputs -/

/-- A 32-character alphanumeric FRED API key. -/
def sampleKey32 : String := "abcdefghijklmnopqrstuvwxyz123456"

/-- Per-variable fetch with two variables that both return data, on
disjoint dates: A has an observation on day 1 only, B on day 2 only. -/
def fetchDisjoint : String → Except ETLError Series := fun v =>
  if v = "A" then Except.ok [(1, 10)]
  else if v = "B" then Except.ok [(2, 20)]
  else Except.error { kind := ETLErrorKind.dataRetrieval, message := "no such series" }

/-- Per-variable fetch where FEDFUNDS succeeds with two observations and
every other code fails (an unknown series raises DataRetrievalError in
`_fetch_series_observations`). -/
def fetchPartial : String → Except ETLError Series := fun v =>
  if v = "FEDFUNDS" then Except.ok [(0, 5), (1, 6)]
  else Except.error { kind := ETLErrorKind.dataRetrieval, message := "no such series" }

/-- A sample metadata record as the FRED client builds it. -/
def sampleMeta : VariableMetadata :=
  { code := "FEDFUNDS"
    name := "Federal Funds Effective Rate"
    description := ""
    units := "Percent"
    frequency := "Monthly"
    source := "FRED"
    category := ""
    start_date := "1954-07-01"
    end_date := "2024-01-01" }

/-- Metadata source that knows FEDFUNDS and returns an empty record set
for every other series (the absent-variable case). -/
def metaFetchPartial : MetaFetch := fun v =>
  if v = "FEDFUNDS" then Except.ok (some sampleMeta)
  else Except.ok none

/-- Metadata source that answers every request, used to show that
`get_variable_metadata` still fails on unnormalized input no matter what
the source returns. -/
def metaFetchTotal : MetaFetch := fun v =>
  Except.ok (some { sampleMeta with code := v })

/-- An operation that raises a RateLimitError carrying a 100-second
retry-after hint on its first attempt and succeeds afterwards. -/
def opRateLimited : Nat → OpOutcome Nat := fun attempt =>
  if attempt = 0 then
    OpOutcome.etlErr
      { kind := ETLErrorKind.rateLimit
        message := "FRED API rate limit exceeded"
        limit := some 120
        retry_after := some 100 }
  else OpOutcome.ok 42

/-- An operation that fails twice with a retriable ConnectionError and
then succeeds. -/
def opTwiceFailing : Nat → OpOutcome Nat := fun attempt =>
  if attempt < 2 then
    OpOutcome.etlErr
      { kind := ETLErrorKind.connection, message := "connection refused" }
  else OpOutcome.ok 7

/-- A scope body that raises a DataRetrievalError without touching the
state, used to exercise the exception path of the scoped-acquisition
pattern. -/
def raisingBody : ClientState → Except ETLError Nat × ClientState := fun st =>
  (Except.error { kind := ETLErrorKind.dataRetrieval, message := "boom" }, st)

/-- A connect that installs a session and sets the connected flag, the
success shape shared by both clients. -/
def okConnect : ClientState → Except ETLError ClientState := fun _ =>
  Except.ok { hasSession := true, is_connected := true }

/-- Decidable equality for `Except`, so that concrete runs of the model
can be checked by evaluation. -/
instance {α β : Type} [DecidableEq α] [DecidableEq β] :
    DecidableEq (Except α β) := fun x y =>
  match x, y with
  | Except.ok a, Except.ok b =>
      if h : a = b then isTrue (by rw [h]) else isFalse (by intro hc; cases hc; exact h rfl)
  | Except.error a, Except.error b =>
      if h : a = b then isTrue (by rw [h]) else isFalse (by intro hc; cases hc; exact h rfl)
  | Except.ok _, Except.error _ => isFalse (by intro hc; cases hc)
  | Except.error _, Except.ok _ => isFalse (by intro hc; cases hc)

/-! ## Helper lemmas -/

/-- The validation loop's two accumulators collect, in order, the
normalized forms of the valid entries and the tags of the invalid
ones. -/
theorem foldl_validateStep (vs : List String) (a b : List String) :
    vs.foldl validateStep (a, b) =
      (a ++ vs.filterMap (fun v => if (tagInvalid v).isSome then none else some (varClean v)),
       b ++ vs.filterMap tagInvalid) := by
  induction vs generalizing a b with
  | nil => simp
  | cons v vs ih =>
      simp only [List.foldl_cons, List.filterMap_cons]
      cases h : tagInvalid v with
      | none =>
          rw [show validateStep (a, b) v = (a ++ [varClean v], b) by
            simp [validateStep, h]]
          rw [ih]
          simp [h]
      | some t =>
          rw [show validateStep (a, b) v = (a, b ++ [t]) by
            simp [validateStep, h]]
          rw [ih]
          simp [h]

/-- When every entry is valid the normalized-valids projection is just
`varClean` mapped over the list. -/
theorem filterMap_valid_eq_map (vs : List String)
    (h : ∀ v ∈ vs, tagInvalid v = none) :
    vs.filterMap (fun v => if (tagInvalid v).isSome then none else some (varClean v)) =
      vs.map varClean := by
  induction vs with
  | nil => rfl
  | cons v vs ih =>
      have hv : tagInvalid v = none := h v (List.mem_cons_self v vs)
      simp only [List.filterMap_cons, List.map_cons, hv]
      simp only [Option.isSome_none, Bool.false_eq_true, if_false]
      rw [ih (fun u hu => h u (List.mem_cons_of_mem v hu))]

/-! ## Claim C6 — variable-code validation -/

/-- Claim C6, counterexample to the claim as stated: the entry "A!"
contains a character outside alphanumeric-plus-underscore-hyphen, so by
the claim the list ["A!"] must raise ValidationFailure; the source
performs no character-class check and accepts it, returning the entry
unchanged. -/
theorem spec_C6_counterexample :
    validate_variable_codes ["A!"] = Except.ok ["A!"] ∧
    "A!".toList.all specAllowedChar = false := by
  constructor
  · decide
  · decide

/-- Claim C6 (amended): validation normalizes each entry to its
uppercase-trimmed form and returns the normalized list; an entry is
invalid exactly when its normalized form is empty or longer than 50
characters (there is no character-class restriction); a list containing
any invalid entry raises ValidationFailure whose message and context
enumerate every invalid entry, in order, not just the first. -/
theorem spec_C6_validate_normalizes_and_enumerates (vs : List String) :
    validate_variable_codes vs =
      if (vs.filterMap tagInvalid).isEmpty then
        Except.ok (vs.map varClean)
      else
        Except.error
          { kind := ETLErrorKind.validation
            message := "Invalid variable codes: " ++
              joinCommaSpace (vs.filterMap tagInvalid)
            error_code := some "INVALID_VARIABLES"
            invalid_variables := vs.filterMap tagInvalid } := by
  unfold validate_variable_codes
  rw [foldl_validateStep]
  simp only [List.nil_append]
  by_cases h : (vs.filterMap tagInvalid).isEmpty
  · rw [if_pos h, if_pos h, filterMap_valid_eq_map]
    intro v hv
    have hnil : vs.filterMap tagInvalid = [] := by
      simpa using h
    exact List.filterMap_eq_nil_iff.mp hnil v hv
  · rw [if_neg h, if_neg h]

/-- Inserting a fresh key into a dict appends it at the end. -/
theorem dictInsert_of_get_none {α : Type} (d : List (String × α)) (k : String)
    (a : α) (h : dictGet d k = none) : dictInsert d k a = d ++ [(k, a)] := by
  induction d with
  | nil => rfl
  | cons p d ih =>
      obtain ⟨k1, a1⟩ := p
      by_cases hk : k1 = k
      · simp [dictGet, hk] at h
      · simp only [dictGet, if_neg hk] at h
        simp [dictInsert, hk, ih h]

/-- Looking up a key absent from the left part of a concatenated dict
falls through to the right part. -/
theorem dictGet_append_left_none {α : Type} (d1 d2 : List (String × α))
    (k : String) (h : dictGet d1 k = none) :
    dictGet (d1 ++ d2) k = dictGet d2 k := by
  induction d1 with
  | nil => rfl
  | cons p d1 ih =>
      obtain ⟨k1, a1⟩ := p
      by_cases hk : k1 = k
      · simp [dictGet, hk] at h
      · simp only [dictGet, if_neg hk] at h
        simp only [List.cons_append, dictGet, if_neg hk]
        exact ih h

/-- A singleton dict contains only its own key. -/
theorem dictGet_singleton_ne {α : Type} (k u : String) (a : α) (h : k ≠ u) :
    dictGet [(k, a)] u = none := by
  simp [dictGet, h]

/-- The `all_data` accumulator built by the `get_data` loop over a
duplicate-free variable list whose entries are fresh for the incoming
accumulator is the incoming accumulator extended by the successful
(variable, series) pairs in request order. -/
theorem getDataLoop_all_data (fetch : String → Except ETLError Series)
    (vs : List String) (ad : List (String × Series)) (failed : List String)
    (hdisj : ∀ v ∈ vs, dictGet ad v = none) (hnd : vs.Nodup) :
    (getDataLoop fetch vs (ad, failed)).1 = ad ++ succList fetch vs := by
  induction vs generalizing ad failed with
  | nil => simp [getDataLoop, succList]
  | cons v vs ih =>
      have hv : dictGet ad v = none := hdisj v (List.mem_cons_self v vs)
      have hvs : ∀ u ∈ vs, dictGet ad u = none :=
        fun u hu => hdisj u (List.mem_cons_of_mem v hu)
      have hnotmem : v ∉ vs := (List.nodup_cons.mp hnd).1
      have hndtl : vs.Nodup := (List.nodup_cons.mp hnd).2
      simp only [getDataLoop, succList, List.filterMap_cons]
      cases hf : fetch v with
      | error e =>
          simp only [succEntry, hf]
          exact ih ad (failed ++ [v]) hvs hndtl
      | ok s =>
          cases hs : s.isEmpty with
          | true =>
              simp only [succEntry, hf, hs, if_pos rfl]
              simp only [if_true]
              exact ih ad (failed ++ [v]) hvs hndtl
          | false =>
              simp only [succEntry, hf, hs]
              simp only [Bool.false_eq_true, if_false]
              rw [dictInsert_of_get_none ad v s hv]
              have hfresh : ∀ u ∈ vs, dictGet (ad ++ [(v, s)]) u = none := by
                intro u hu
                rw [dictGet_append_left_none ad [(v, s)] u (hvs u hu)]
                exact dictGet_singleton_ne v u s (fun hvu => hnotmem (hvu ▸ hu))
              rw [ih (ad ++ [(v, s)]) failed hfresh hndtl]
              simp [List.append_assoc, succList]

/-- The result table has one column per stored variable, in insertion
order. -/
theorem combine_cols_fst (ad : List (String × Series)) :
    (combine ad).cols.map Prod.fst = ad.map Prod.fst := by
  cases ad with
  | nil => rfl
  | cons p rest =>
      obtain ⟨v0, s0⟩ := p
      simp [combine]

/-- Characterization of `get_data` on a connected client with
successfully validated, duplicate-free codes and valid dates: the call
fails with `DataRetrievalError` when no variable yields data and
otherwise returns the combined table of the successful series. -/
theorem get_data_characterization (fetch : String → Except ETLError Series)
    (vs L : List String)
    (hval : validate_variable_codes vs = Except.ok L) (hnd : L.Nodup) :
    get_data true fetch (Except.ok ()) vs =
      if (succList fetch L).isEmpty then
        Except.error
          { kind := ETLErrorKind.dataRetrieval
            message := "No data retrieved for any requested variables"
            variablesCtx := L }
      else
        Except.ok (combine (succList fetch L)) := by
  have hdisj : ∀ v ∈ L, dictGet ([] : List (String × Series)) v = none :=
    fun v _ => rfl
  have hloop := getDataLoop_all_data fetch L [] [] hdisj hnd
  simp only [List.nil_append] at hloop
  simp [get_data, hval, hloop]

/-! ## Claim C2 — partial success of get_data -/

/-- Claim C2: on a connected client with validated, duplicate-free
codes, `get_data` raises DataRetrievalFailure when zero variables yield
data, and otherwise returns — without raising — a table whose columns
are exactly the variables that succeeded, in request order, even when
other variables failed. -/
theorem spec_C2_partial_success (fetch : String → Except ETLError Series)
    (vs L : List String)
    (hval : validate_variable_codes vs = Except.ok L) (hnd : L.Nodup) :
    (succList fetch L = [] →
      get_data true fetch (Except.ok ()) vs =
        Except.error
          { kind := ETLErrorKind.dataRetrieval
            message := "No data retrieved for any requested variables"
            variablesCtx := L })
    ∧ (succList fetch L ≠ [] →
      get_data true fetch (Except.ok ()) vs =
        Except.ok (combine (succList fetch L)) ∧
      (combine (succList fetch L)).cols.map Prod.fst =
        (succList fetch L).map Prod.fst) := by
  have h := get_data_characterization fetch vs L hval hnd
  constructor
  · intro hnil
    rw [h, hnil]
    rfl
  · intro hne
    have hb : (succList fetch L).isEmpty = false := by
      cases hcase : (succList fetch L).isEmpty
      · rfl
      · exact absurd (List.isEmpty_iff.mp hcase) hne
    rw [h, hb]
    exact ⟨rfl, combine_cols_fst _⟩

/-- Claim C2, witness: one valid and one unknown variable code on a
connected client — the call returns the table with only the valid
variable's column and does not raise. -/
theorem spec_C2_witness :
    get_data true fetchPartial (Except.ok ()) ["FEDFUNDS", "BADVAR"] =
      Except.ok (combine (succList fetchPartial ["FEDFUNDS", "BADVAR"])) ∧
    (combine (succList fetchPartial ["FEDFUNDS", "BADVAR"])).cols.map Prod.fst =
      ["FEDFUNDS"] := by
  have h := (spec_C2_partial_success fetchPartial ["FEDFUNDS", "BADVAR"]
    ["FEDFUNDS", "BADVAR"] (by decide) (by decide)).2 (by decide)
  exact ⟨h.1, h.2.trans (by decide)⟩

/-! ## Claim C1 — table construction of get_data -/

/-- Claim C1, counterexample to the claim as stated: with two retrieved
variables on disjoint dates, the returned table's row index is the
first variable's date list [1], not the union [1, 2] that the
outer-join table holds, and B's only observation is dropped rather than
given its own row. -/
theorem spec_C1_counterexample :
    get_data true fetchDisjoint (Except.ok ()) ["A", "B"] =
      Except.ok { index := [1], cols := [("A", [some 10]), ("B", [none])] } ∧
    succList fetchDisjoint ["A", "B"] = [("A", [(1, 10)]), ("B", [(2, 20)])] ∧
    specOuterJoinTable [("A", [(1, 10)]), ("B", [(2, 20)])] =
      { index := [1, 2], cols := [("A", [some 10, none]), ("B", [none, some 20])] } ∧
    ({ index := [1], cols := [("A", [some 10]), ("B", [none])] } : Table) ≠
      { index := [1, 2], cols := [("A", [some 10, none]), ("B", [none, some 20])] } := by
  decide

/-- Claim C1 (amended): on a connected client with validated,
duplicate-free codes and at least one successful variable, the returned
table's row index is the date list of the *first* successfully
retrieved variable's series; there is one column per successful
variable, each aligned to that index (the variable's value where it has
an observation on the row's date, an absent value otherwise); dates on
which only later variables have observations get no row. -/
theorem spec_C1_first_variable_alignment
    (fetch : String → Except ETLError Series) (vs L : List String)
    (v0 : String) (s0 : Series) (rest : List (String × Series))
    (hval : validate_variable_codes vs = Except.ok L) (hnd : L.Nodup)
    (hsucc : succList fetch L = (v0, s0) :: rest) :
    get_data true fetch (Except.ok ()) vs =
      Except.ok
        { index := s0.map Prod.fst
          cols := ((v0, s0) :: rest).map
            (fun p => (p.1, (s0.map Prod.fst).map (seriesLookup p.2))) } := by
  rw [get_data_characterization fetch vs L hval hnd, hsucc]
  rfl

/-- Claim C1, witness: evaluating the amended statement at the
two-variable disjoint-dates input. -/
theorem spec_C1_witness :
    get_data true fetchDisjoint (Except.ok ()) ["A", "B"] =
      Except.ok
        { index := ([(1, 10)] : Series).map Prod.fst
          cols := [("A", ([(1, 10)] : Series)), ("B", [(2, 20)])].map
            (fun p => (p.1,
              (([(1, 10)] : Series).map Prod.fst).map (seriesLookup p.2))) } :=
  spec_C1_first_variable_alignment fetchDisjoint ["A", "B"] ["A", "B"]
    "A" [(1, 10)] [("B", [(2, 20)])] (by decide) (by decide) (by decide)

/-! ## Claim C7 — get_metadata / get_variable_metadata asymmetry -/

/-- Claim C7: for a (normalized, valid) variable absent from the
source, `get_variable_metadata` raises DataRetrievalFailure while
`get_metadata` on a list containing that same variable returns the
mapping with it silently omitted.  The definition is the shared shape
of the FRED and Haver implementations, which differ only inside the
per-variable fetch `fetchMeta`. -/
theorem spec_C7_metadata_asymmetry (fetchMeta : MetaFetch) (u w : String)
    (m : VariableMetadata)
    (hu_valid : tagInvalid u = none) (hu_norm : varClean u = u)
    (hw_valid : tagInvalid w = none) (hw_norm : varClean w = w)
    (hmu : fetchMeta u = Except.ok (some m))
    (hmw : fetchMeta w = Except.ok none) :
    get_variable_metadata true fetchMeta w =
      Except.error
        { kind := ETLErrorKind.dataRetrieval
          message := "No metadata found for variable " ++ w
          variablesCtx := [w] } ∧
    get_metadata true fetchMeta [u, w] = Except.ok [(u, m)] := by
  have hval1 : validate_variable_codes [w] = Except.ok [w] := by
    unfold validate_variable_codes
    rw [foldl_validateStep]
    simp [hw_valid, hw_norm]
  have hval2 : validate_variable_codes [u, w] = Except.ok [u, w] := by
    unfold validate_variable_codes
    rw [foldl_validateStep]
    simp [hu_valid, hw_valid, hu_norm, hw_norm]
  constructor
  · simp [get_variable_metadata, get_metadata, hval1, hmw, dictGet]
  · simp [get_metadata, hval2, hmu, hmw, dictInsert]

/-- Claim C7, witness: FEDFUNDS is known to the source, MISSING is not;
the singular lookup of MISSING raises while the plural lookup of both
returns only the FEDFUNDS record. -/
theorem spec_C7_witness :
    get_variable_metadata true metaFetchPartial "MISSING" =
      Except.error
        { kind := ETLErrorKind.dataRetrieval
          message := "No metadata found for variable " ++ "MISSING"
          variablesCtx := ["MISSING"] } ∧
    get_metadata true metaFetchPartial ["FEDFUNDS", "MISSING"] =
      Except.ok [("FEDFUNDS", sampleMeta)] :=
  spec_C7_metadata_asymmetry metaFetchPartial "FEDFUNDS" "MISSING" sampleMeta
    (by decide) (by decide) (by decide) (by decide) (by decide) (by decide)

/-! ## Claim C9 — get_variable_metadata on unnormalized input -/

/-- Claim C9: a valid variable code that differs from its
uppercase-trimmed normalization always makes `get_variable_metadata`
raise DataRetrievalFailure, whatever the source returns, because the
mapping built by `get_metadata` is keyed by the normalized code while
membership is tested with the original argument. -/
theorem spec_C9_unnormalized_metadata_lookup (fetchMeta : MetaFetch)
    (v : String) (hvalid : tagInvalid v = none) (hne : varClean v ≠ v) :
    get_variable_metadata true fetchMeta v =
      Except.error
        { kind := ETLErrorKind.dataRetrieval
          message := "No metadata found for variable " ++ v
          variablesCtx := [v] } := by
  have hval : validate_variable_codes [v] = Except.ok [varClean v] := by
    unfold validate_variable_codes
    rw [foldl_validateStep]
    simp [hvalid]
  cases hf : fetchMeta (varClean v) with
  | error e => simp [get_variable_metadata, get_metadata, hval, hf, dictGet]
  | ok o =>
      cases o with
      | none => simp [get_variable_metadata, get_metadata, hval, hf, dictGet]
      | some mm =>
          simp [get_variable_metadata, get_metadata, hval, hf, dictInsert,
            dictGet, hne]

/-- Claim C9, witness: the lowercase code "fedfunds" fails the singular
metadata lookup even against a source that answers every request. -/
theorem spec_C9_witness :
    get_variable_metadata true metaFetchTotal "fedfunds" =
      Except.error
        { kind := ETLErrorKind.dataRetrieval
          message := "No metadata found for variable " ++ "fedfunds"
          variablesCtx := ["fedfunds"] } :=
  spec_C9_unnormalized_metadata_lookup metaFetchTotal "fedfunds"
    (by decide) (by decide)

/-! ## Claim C8 — scoped acquisition always disconnects -/

/-- Claim C8: once the scope is entered (connect succeeded), disconnect
runs on every exit path: after the scope the client's `is_connected`
flag is false, and the body's outcome — its value or the exception it
raised — propagates unchanged. -/
theorem spec_C8_scoped_disconnect {α : Type}
    (connect : ClientState → Except ETLError ClientState)
    (body : ClientState → Except ETLError α × ClientState)
    (st st1 : ClientState) (h : connect st = Except.ok st1) :
    (withClient connect body st).1 = (body st1).1 ∧
    (withClient connect body st).2.is_connected = false := by
  unfold withClient
  rw [h]
  exact ⟨rfl, rfl⟩

/-- Claim C8, witness: a body that raises inside the scope still leaves
the client disconnected, and the exception propagates. -/
theorem spec_C8_witness :
    (withClient okConnect raisingBody
      { hasSession := false, is_connected := false }).1 =
      Except.error { kind := ETLErrorKind.dataRetrieval, message := "boom" } ∧
    (withClient okConnect raisingBody
      { hasSession := false, is_connected := false }).2.is_connected = false := by
  have h := spec_C8_scoped_disconnect okConnect raisingBody
    { hasSession := false, is_connected := false }
    { hasSession := true, is_connected := true } rfl
  exact ⟨h.1.trans (by decide), h.2⟩

/-! ## Claim C3 — retry wrapper sleeps -/

/-- Claim C3, evaluation at the failing input: `hasattr(e,
"retry_after")` is false for every instance of the exception hierarchy,
so the retry-after branch of the wrapper is dead code — an operation
whose first attempt raises a RateLimitError carrying a 100-second
retry-after hint is retried after sleeping only `retry_delay *
backoff_factor ^ 0 = 1` second, not at least 100; and an operation that
fails twice with a retriable error then succeeds returns the success
after exactly two retries with sleeps `[delay, delay * backoff]`. -/
theorem spec_C3_retry_sleeps :
    etlHasattr "retry_after" = false ∧
    handle_api_errors 3 1 2 opRateLimited = (Except.ok 42, [1]) ∧
    (1 : ℚ) < 100 ∧
    handle_api_errors 3 1 2 opTwiceFailing = (Except.ok 7, [1, 2]) := by
  refine ⟨by decide, ?_, by norm_num, ?_⟩
  · simp only [handle_api_errors, handleLoop, opRateLimited]
    norm_num [ETLError.isRetriableDefault, ETLError.isRateLimit, etlHasattr,
      etlErrorInstanceAttrs]
    exact fun h => absurd h (by decide)
  · simp only [handle_api_errors, handleLoop, opTwiceFailing]
    norm_num [ETLError.isRetriableDefault, ETLError.isRateLimit, etlHasattr,
      etlErrorInstanceAttrs]
    exact ⟨fun h => absurd h (by decide), fun h => absurd h (by decide)⟩

/-! ## Claim C10 — limiter state on raise -/

/-- Claim C10, counterexample to the claim as stated: with a configured
limit of 0 (the constructor accepts any `rate_limit` override) and a
call 100 seconds after the window start, the window reset runs first —
mutating `minute_window_start` — and the limit check then raises, so
the limiter raises RateLimitFailure with its state changed. -/
theorem spec_C10_counterexample :
    (enforce_rate_limit 0
      { minute_window_start := 0, requests_this_minute := 0,
        last_request_time := 0 } 100).2.1 =
      some
        { kind := ETLErrorKind.rateLimit
          message := "FRED API rate limit exceeded"
          limit := some 0
          retry_after := some 61 } ∧
    (enforce_rate_limit 0
      { minute_window_start := 0, requests_this_minute := 0,
        last_request_time := 0 } 100).1 ≠
      { minute_window_start := 0, requests_this_minute := 0,
        last_request_time := 0 } := by
  constructor
  · simp [enforce_rate_limit]
    norm_num
  · intro h
    have := congrArg RateLimitState.minute_window_start h
    simp [enforce_rate_limit] at this
    norm_num at this

/-- Claim C10 (amended): with a positive configured limit — as in every
shipped configuration — a raise of RateLimitFailure leaves the limiter
state entirely unchanged: the raise then implies no window reset
happened (a reset zeroes the counter below the positive limit), and the
counter increment and timestamp update come after the raise point. -/
theorem spec_C10_state_unchanged_on_raise (rate_limit : Nat)
    (st : RateLimitState) (now : ℚ) (e : ETLError) (hpos : 0 < rate_limit)
    (h : (enforce_rate_limit rate_limit st now).2.1 = some e) :
    (enforce_rate_limit rate_limit st now).1 = st := by
  by_cases hreset : now - st.minute_window_start ≥ 60
  · exfalso
    have hcnt : ¬ ((0 : Nat) ≥ rate_limit) := by omega
    simp only [enforce_rate_limit, rateLimitProceed] at h
    rw [if_pos hreset] at h
    simp [hcnt] at h
  · by_cases hcnt : st.requests_this_minute ≥ rate_limit
    · by_cases hwait : 60 - (now - st.minute_window_start) > 0
      · simp only [enforce_rate_limit]
        rw [if_neg hreset, if_pos hcnt, if_pos hwait]
      · exfalso
        simp only [enforce_rate_limit, rateLimitProceed] at h
        rw [if_neg hreset, if_pos hcnt, if_neg hwait] at h
        simp at h
    · exfalso
      simp only [enforce_rate_limit, rateLimitProceed] at h
      rw [if_neg hreset, if_neg hcnt] at h
      simp at h

/-- Claim C10, witness: a limiter at its (positive) limit inside the
window raises and the state is exactly the prior state. -/
theorem spec_C10_witness :
    (enforce_rate_limit 1
      { minute_window_start := 0, requests_this_minute := 1,
        last_request_time := 0 } 10).1 =
      { minute_window_start := 0, requests_this_minute := 1,
        last_request_time := 0 } :=
  spec_C10_state_unchanged_on_raise 1
    { minute_window_start := 0, requests_this_minute := 1,
      last_request_time := 0 } 10
    { kind := ETLErrorKind.rateLimit
      message := "FRED API rate limit exceeded"
      limit := some 1
      retry_after := some 51 }
    (by norm_num)
    (by simp [enforce_rate_limit]; norm_num)

/-! ## Claim C4 — sliding minute window -/

/-- Requests made strictly inside the current window while the counter
stays below the limit all succeed, each incrementing the counter by
one; the window start never moves. -/
theorem runRequests_in_window (rate_limit : Nat) (t0 : ℚ) (times : List ℚ) :
    ∀ (c : Nat) (last : ℚ), c + times.length ≤ rate_limit →
      (∀ t ∈ times, t - t0 < 60) →
      ∃ last2,
        runRequests rate_limit
          { minute_window_start := t0, requests_this_minute := c,
            last_request_time := last } times =
          ({ minute_window_start := t0,
             requests_this_minute := c + times.length,
             last_request_time := last2 }, none) := by
  induction times with
  | nil =>
      intro c last _ _
      exact ⟨last, by simp [runRequests]⟩
  | cons t ts ih =>
      intro c last hc hwin
      have hno_reset : ¬ (t - t0 ≥ 60) :=
        not_le.mpr (hwin t (List.mem_cons_self _ _))
      have hcnt : ¬ (c ≥ rate_limit) := by
        simp only [List.length_cons] at hc
        omega
      obtain ⟨last2, hrun⟩ :=
        ih (c + 1) (t + (if t - last < 1/2 then 1/2 - (t - last) else 0))
          (by simp only [List.length_cons] at hc; omega)
          (fun u hu => hwin u (List.mem_cons_of_mem _ hu))
      refine ⟨last2, ?_⟩
      simp only [runRequests, enforce_rate_limit, rateLimitProceed]
      rw [if_neg hno_reset, if_neg hcnt]
      simp only [List.length_cons]
      rw [hrun]
      have harith : c + 1 + ts.length = c + (ts.length + 1) := by omega
      rw [harith]

/-- Claim C4: starting a window at `t0` with a zero counter, after
exactly `rate_limit` requests inside the window the next immediate
request still inside the window raises RateLimitFailure carrying the
remaining wait of the window (`int(seconds_to_wait) + 1`, at least the
exact remainder); and a request made 60 seconds or more after the
window start resets the counter and succeeds, leaving counter 1 and a
fresh window. -/
theorem spec_C4_sliding_window (rate_limit : Nat) (t0 tN tReset : ℚ)
    (times : List ℚ) (hpos : 0 < rate_limit)
    (hlen : times.length = rate_limit) (hwin : ∀ t ∈ times, t - t0 < 60)
    (hN : tN - t0 < 60) (hR : tReset - t0 ≥ 60) :
    ∃ last2,
      runRequests rate_limit
        { minute_window_start := t0, requests_this_minute := 0,
          last_request_time := t0 } times =
        ({ minute_window_start := t0, requests_this_minute := rate_limit,
           last_request_time := last2 }, none) ∧
      (enforce_rate_limit rate_limit
        { minute_window_start := t0, requests_this_minute := rate_limit,
          last_request_time := last2 } tN).2.1 =
        some
          { kind := ETLErrorKind.rateLimit
            message := "FRED API rate limit exceeded"
            limit := some rate_limit
            retry_after := some (⌊(60 : ℚ) - (tN - t0)⌋ + 1) } ∧
      ((60 : ℚ) - (tN - t0)) ≤ ((⌊(60 : ℚ) - (tN - t0)⌋ + 1 : ℤ) : ℚ) ∧
      (enforce_rate_limit rate_limit
        { minute_window_start := t0, requests_this_minute := rate_limit,
          last_request_time := last2 } tReset).2.1 = none ∧
      (enforce_rate_limit rate_limit
        { minute_window_start := t0, requests_this_minute := rate_limit,
          last_request_time := last2 } tReset).1.requests_this_minute = 1 ∧
      (enforce_rate_limit rate_limit
        { minute_window_start := t0, requests_this_minute := rate_limit,
          last_request_time := last2 } tReset).1.minute_window_start =
        tReset := by
  obtain ⟨last2, hrun⟩ :=
    runRequests_in_window rate_limit t0 times 0 t0 (by omega) hwin
  rw [hlen] at hrun
  refine ⟨last2, by simpa using hrun, ?_, ?_, ?_, ?_, ?_⟩
  · have hno_reset : ¬ (tN - t0 ≥ 60) := not_le.mpr hN
    have hwait : (60 : ℚ) - (tN - t0) > 0 := by linarith
    simp only [enforce_rate_limit]
    rw [if_neg hno_reset]
    rw [if_pos (le_refl rate_limit), if_pos hwait]
  · have := Int.lt_floor_add_one ((60 : ℚ) - (tN - t0))
    push_cast
    linarith
  · have hcounter : ¬ ((0 : Nat) ≥ rate_limit) := by omega
    simp only [enforce_rate_limit, rateLimitProceed]
    rw [if_pos hR]
    simp [hcounter]
  · have hcounter : ¬ ((0 : Nat) ≥ rate_limit) := by omega
    simp only [enforce_rate_limit, rateLimitProceed]
    rw [if_pos hR]
    simp [hcounter]
  · have hcounter : ¬ ((0 : Nat) ≥ rate_limit) := by omega
    simp only [enforce_rate_limit, rateLimitProceed]
    rw [if_pos hR]
    simp [hcounter]

/-- Claim C4, witness: limit 2, window starting at 0, two requests at
times 0 and 10; the third request at time 30 raises with retry-after 31
seconds; a request at time 100 resets the window and succeeds. -/
theorem spec_C4_witness :
    runRequests 2
      { minute_window_start := 0, requests_this_minute := 0,
        last_request_time := 0 } [0, 10] =
      ({ minute_window_start := 0, requests_this_minute := 2,
         last_request_time := 10 }, none) ∧
    (enforce_rate_limit 2
      { minute_window_start := 0, requests_this_minute := 2,
        last_request_time := 10 } 30).2.1 =
      some
        { kind := ETLErrorKind.rateLimit
          message := "FRED API rate limit exceeded"
          limit := some 2
          retry_after := some 31 } ∧
    (enforce_rate_limit 2
      { minute_window_start := 0, requests_this_minute := 2,
        last_request_time := 10 } 100).2.1 = none ∧
    (enforce_rate_limit 2
      { minute_window_start := 0, requests_this_minute := 2,
        last_request_time := 10 } 100).1.requests_this_minute = 1 ∧
    (enforce_rate_limit 2
      { minute_window_start := 0, requests_this_minute := 2,
        last_request_time := 10 } 100).1.minute_window_start = 100 := by
  obtain ⟨last2, h1, h2, _h3, h4, h5, h6⟩ :=
    spec_C4_sliding_window 2 0 30 100 [0, 10] (by norm_num) (by norm_num)
      (by intro t ht; simp at ht; rcases ht with rfl | rfl <;> norm_num)
      (by norm_num) (by norm_num)
  have heval : runRequests 2
      { minute_window_start := 0, requests_this_minute := 0,
        last_request_time := 0 } [0, 10] =
      ({ minute_window_start := 0, requests_this_minute := 2,
         last_request_time := (10 : ℚ) }, none) := by
    norm_num [runRequests, enforce_rate_limit, rateLimitProceed]
  have hl : last2 = 10 := by
    rw [heval] at h1
    have := congrArg (fun p => (Prod.fst p).last_request_time) h1
    simpa using this.symm
  subst hl
  refine ⟨heval, h2.trans ?_, h4, h5, h6⟩
  norm_num

/-! ## Claim C5 — factory resolution -/

/-- Claim C5, counterexample to the claim as stated: (i) the claim's own
scenario `create("HAVER", username="u", password="p")` does not return
an instance at all — the username fails constructor validation and the
factory wraps that into ConfigurationFailure; (ii) with valid
credentials the instance returned for "HAVER" has `source_name`
"Unknown Source", not "Haver" (no client ever overrides the base-class
default); (iii) the capitalization variant "fRED" is not in the
registry, so it raises instead of resolving. -/
theorem spec_C5_counterexample :
    create_data_source "HAVER" none (some "u") (some "p") none none none
        (fun _ => none) =
      Except.error
        { kind := ETLErrorKind.configuration
          message := "Failed to create data source " ++ sQuote ++ "HAVER" ++
            sQuote ++ ": " ++ "Haver username must be at least 3 characters long"
          config_key := some "source_instantiation" } ∧
    create_data_source "HAVER" none (some "user1") (some "secret1") none none
        none (fun _ => none) =
      Except.ok
        { cls := SourceClass.haverC, source_name := "Unknown Source",
          is_connected := false } ∧
    ("Unknown Source" : String) ≠ "Haver" ∧
    create_data_source "fRED" (some sampleKey32) none none none none none
        (fun _ => none) =
      Except.error
        { kind := ETLErrorKind.configuration
          message := "Unsupported data source: " ++ sQuote ++ "fRED" ++
            sQuote ++ ". Available sources: " ++ pyStrList availableSources
          config_key := some "source_type" } := by
  refine ⟨by decide, by decide, by decide, by decide⟩

/-- Claim C5 (amended): the factory resolves exactly the six registered
capitalizations — fred/FRED/Fred and haver/HAVER/Haver — to the
corresponding client constructor; with valid credentials the
constructed instance's `source_name` is the base-class default
"Unknown Source" whatever the input case; an identifier outside the
registered set raises ConfigurationFailure listing the available
sources. -/
theorem spec_C5_factory_resolution (env : String → Option String) :
    (∀ s ∈ (["haver", "HAVER", "Haver"] : List String), ∀ u p : String,
      u.isEmpty = false → 3 ≤ (pyStrip u).length →
      p.isEmpty = false → 6 ≤ p.length →
      create_data_source s none (some u) (some p) none none none env =
        Except.ok
          { cls := SourceClass.haverC, source_name := "Unknown Source",
            is_connected := false }) ∧
    (∀ s ∈ (["fred", "FRED", "Fred"] : List String), ∀ k : String,
      k.isEmpty = false → k.length = 32 → pyIsAlnum (stripHyphens k) = true →
      create_data_source s (some k) none none none none none env =
        Except.ok
          { cls := SourceClass.fredC, source_name := "Unknown Source",
            is_connected := false }) ∧
    (∀ s : String, s.isEmpty = false →
      dictGet DATA_SOURCE_REGISTRY (pyStrip s) = none →
      create_data_source s none none none none none none env =
        Except.error
          { kind := ETLErrorKind.configuration
            message := "Unsupported data source: " ++ sQuote ++ s ++ sQuote ++
              ". Available sources: " ++ pyStrList availableSources
            config_key := some "source_type" }) := by
  refine ⟨?_, ?_, ?_⟩
  · intro s hs u p hu hu3 hp hp6
    have h3 : ¬ ((pyStrip u).length < 3) := by omega
    have h6 : ¬ (p.length < 6) := by omega
    simp only [List.mem_cons, List.not_mem_nil, or_false] at hs
    rcases hs with rfl | rfl | rfl
    · have hreg : dictGet DATA_SOURCE_REGISTRY (pyStrip "haver") =
        some SourceClass.haverC := by decide
      simp [create_data_source, hreg, resolveCred, pyOr, hu, hp,
        HaverDataSource_init, h3, h6,
        show ("haver" : String).isEmpty = false from by decide]
    · have hreg : dictGet DATA_SOURCE_REGISTRY (pyStrip "HAVER") =
        some SourceClass.haverC := by decide
      simp [create_data_source, hreg, resolveCred, pyOr, hu, hp,
        HaverDataSource_init, h3, h6,
        show ("HAVER" : String).isEmpty = false from by decide]
    · have hreg : dictGet DATA_SOURCE_REGISTRY (pyStrip "Haver") =
        some SourceClass.haverC := by decide
      simp [create_data_source, hreg, resolveCred, pyOr, hu, hp,
        HaverDataSource_init, h3, h6,
        show ("Haver" : String).isEmpty = false from by decide]
  · intro s hs k hk hk32 halnum
    simp only [List.mem_cons, List.not_mem_nil, or_false] at hs
    rcases hs with rfl | rfl | rfl
    · have hreg : dictGet DATA_SOURCE_REGISTRY (pyStrip "fred") =
        some SourceClass.fredC := by decide
      simp [create_data_source, hreg, resolveCred, pyOr, hk, hk32, halnum,
        FREDDataSource_init,
        show ("fred" : String).isEmpty = false from by decide]
    · have hreg : dictGet DATA_SOURCE_REGISTRY (pyStrip "FRED") =
        some SourceClass.fredC := by decide
      simp [create_data_source, hreg, resolveCred, pyOr, hk, hk32, halnum,
        FREDDataSource_init,
        show ("FRED" : String).isEmpty = false from by decide]
    · have hreg : dictGet DATA_SOURCE_REGISTRY (pyStrip "Fred") =
        some SourceClass.fredC := by decide
      simp [create_data_source, hreg, resolveCred, pyOr, hk, hk32, halnum,
        FREDDataSource_init,
        show ("Fred" : String).isEmpty = false from by decide]
  · intro s hs0 hlook
    simp [create_data_source, hs0, hlook]

/-- Claim C5, witness: every registered capitalization of "haver"
resolves to a Haver instance whose `source_name` is "Unknown Source";
an unregistered identifier raises the listing error. -/
theorem spec_C5_witness :
    create_data_source "HAVER" none (some "user1") (some "secret99") none none
        none (fun _ => none) =
      Except.ok
        { cls := SourceClass.haverC, source_name := "Unknown Source",
          is_connected := false } ∧
    create_data_source "Fred" (some sampleKey32) none none none none none
        (fun _ => none) =
      Except.ok
        { cls := SourceClass.fredC, source_name := "Unknown Source",
          is_connected := false } ∧
    create_data_source "xyz" none none none none none none (fun _ => none) =
      Except.error
        { kind := ETLErrorKind.configuration
          message := "Unsupported data source: " ++ sQuote ++ "xyz" ++
            sQuote ++ ". Available sources: " ++ pyStrList availableSources
          config_key := some "source_type" } := by
  have h := spec_C5_factory_resolution (fun _ => none)
  refine ⟨?_, ?_, ?_⟩
  · exact h.1 "HAVER" (by decide) "user1" "secret99" (by decide) (by decide)
      (by decide) (by decide)
  · exact h.2.1 "Fred" (by decide) sampleKey32 (by decide) (by decide)
      (by decide)
  · exact h.2.2 "xyz" (by decide) (by decide)

/-- Claim C6, witness: two valid lowercase/padded codes come back
normalized; a list with an empty and an over-length entry raises with
both entries enumerated. -/
theorem spec_C6_witness :
    validate_variable_codes ["fedfunds", " dgs10 "] =
      Except.ok ["FEDFUNDS", "DGS10"] ∧
    validate_variable_codes ["", "FEDFUNDS"] =
      Except.error
        { kind := ETLErrorKind.validation
          message := "Invalid variable codes: " ++
            (sQuote ++ "" ++ sQuote ++ " (empty)")
          error_code := some "INVALID_VARIABLES"
          invalid_variables := [sQuote ++ "" ++ sQuote ++ " (empty)"] } := by
  have h1 := spec_C6_validate_normalizes_and_enumerates ["fedfunds", " dgs10 "]
  have h2 := spec_C6_validate_normalizes_and_enumerates ["", "FEDFUNDS"]
  exact ⟨h1.trans (by decide), h2.trans (by decide)⟩
